import Mathlib

/-!
Verification of the Bunny VTT Converter conversion pipeline.

Shallow embedding of the core modules of the repository:
* `src/utils/vtt-generator.js`   (`convertTimestamp`, `generateVTT`,
  `validateVTTFormat`, `validateBunnyStreamCompliance`)
* `src/utils/srt-parser.js`      (`validateSRTFormat`, `parseSRT`)
* the encoding module            (`detectEncoding`, `fixDoubleEncodedUTF8`)
* `src/utils/language-detection.js` (`detectLanguage`)

JavaScript strings are modelled as Lean `String` (sequences of Unicode
scalar values; string indices are code-point indices, which agrees with
JS UTF-16 indices on BMP-only text), byte buffers as `List Nat`, numbers
in the language detector as exact rationals `ℚ` (the idealized real
semantics of the JS float arithmetic), and throwing functions as
`Except String`-valued functions.
-/

namespace BunnyVTT

/-! ## JS string primitives -/

/-- The set of characters matched by the JS regex class `\s` and removed by
`String.prototype.trim` (ASCII whitespace, NBSP, Unicode space separators,
line/paragraph separators, and the BOM). -/
def isJsSpace (c : Char) : Bool :=
  [' ', '\t', '\n', '\r', '\u000B', '\u000C', '\u00A0', '\u1680',
   '\u2000', '\u2001', '\u2002', '\u2003', '\u2004', '\u2005', '\u2006',
   '\u2007', '\u2008', '\u2009', '\u200A', '\u2028', '\u2029', '\u202F',
   '\u205F', '\u3000', '\uFEFF'].contains c

/-- JS `String.prototype.trim`: strip `isJsSpace` characters from both ends. -/
def jsTrim (s : String) : String :=
  ⟨((s.data.dropWhile isJsSpace).reverse.dropWhile isJsSpace).reverse⟩

/-- The JS regex test `/^\d+$/.test s`: a non-empty all-digit string. -/
def isDigitsStr (s : String) : Bool :=
  !s.data.isEmpty && s.data.all Char.isDigit

/-- JS `parseInt` on a string of decimal digits. -/
def natOfDigits (s : String) : Nat :=
  s.data.foldl (fun n c => n * 10 + (c.toNat - 48)) 0

/-- Substring containment on character lists (JS `String.prototype.includes`). -/
def containsSub : List Char → List Char → Bool
  | l, pat =>
    if pat.isPrefixOf l then true
    else match l with
      | [] => false
      | _ :: t => containsSub t pat

/-- JS `String.prototype.includes` on strings. -/
def jsIncludes (s pat : String) : Bool := containsSub s.data pat.data

/-! ## Data model: subtitle records (`SubtitleRecord` of the spec) -/

/-- A parsed subtitle record as produced by `parseSRT`:
`{ index, startTime, endTime, text }`.  In the JS source the fields of a
parser-produced record are always present, so the record type is total. -/
structure Subtitle where
  index : Nat
  startTime : String
  endTime : String
  text : String
  deriving Repr, DecidableEq

/-! ## VTT generator: `convertTimestamp` (src/utils/vtt-generator.js lines 12-27) -/

/-- The generator's timestamp regex
`^(\d{2}):([0-5]\d):([0-5]\d),(\d{3})$`: two digits, colon, a minute
00-59, colon, a second 00-59, comma, three digits. -/
def validVTTts (s : String) : Bool :=
  match s.data with
  | [h1, h2, c1, m1, m2, c2, s1, s2, c3, x1, x2, x3] =>
    h1.isDigit && h2.isDigit && c1 == ':' &&
    decide ('0' ≤ m1 ∧ m1 ≤ '5') && m2.isDigit && c2 == ':' &&
    decide ('0' ≤ s1 ∧ s1 ≤ '5') && s2.isDigit && c3 == ',' &&
    x1.isDigit && x2.isDigit && x3.isDigit
  | _ => false

/-- JS `String.prototype.replace` with the plain-string pattern `','`:
replace only the first comma. -/
def replaceFirstComma : List Char → List Char
  | [] => []
  | c :: rest => if c == ',' then '.' :: rest else c :: replaceFirstComma rest

/-- `convertTimestamp` (src/utils/vtt-generator.js lines 12-27): validate the
SRT timestamp against the range-checked regex and turn the comma into a
period.  The `!srtTimestamp` guard rejects exactly the empty string on the
string domain. -/
def convertTimestamp (srtTimestamp : String) : Except String String :=
  if srtTimestamp == "" then
    .error "Invalid timestamp: must be a non-empty string"
  else if validVTTts srtTimestamp then
    .ok ⟨replaceFirstComma srtTimestamp.data⟩
  else
    .error s!"Invalid SRT timestamp format: {srtTimestamp}. Expected format: HH:MM:SS,mmm"

/-! ## VTT generator: `generateVTT` (src/utils/vtt-generator.js lines 35-77) -/

/-- Body of the `subtitles.forEach` loop of `generateVTT`: emit
`<startVTT> --> <endVTT>\n<text>\n\n` per record, aborting the whole
generation on the first bad record.  `idx` is the running array index used
in error messages.  The `text === undefined` guard of the source cannot
fire on total records and the `!startTime || !endTime` guards reduce to
emptiness tests on strings. -/
def genEntries : List Subtitle → Nat → Except String String
  | [], _ => .ok ""
  | sub :: rest, idx =>
    if sub.startTime == "" || sub.endTime == "" then
      .error s!"Missing required fields in subtitle at index {idx}. Required: startTime, endTime, text"
    else
      match convertTimestamp sub.startTime with
      | .error m => .error s!"Error processing subtitle at index {idx}: {m}"
      | .ok vttStartTime =>
        match convertTimestamp sub.endTime with
        | .error m => .error s!"Error processing subtitle at index {idx}: {m}"
        | .ok vttEndTime =>
          match genEntries rest (idx + 1) with
          | .error e => .error e
          | .ok tail =>
            .ok (vttStartTime ++ " --> " ++ vttEndTime ++ "\n" ++ sub.text ++ "\n\n" ++ tail)

/-- `generateVTT` (src/utils/vtt-generator.js lines 35-77). -/
def generateVTT (subtitles : List Subtitle) : Except String String :=
  if subtitles.isEmpty then
    .error "No subtitles provided for VTT generation"
  else
    match genEntries subtitles 0 with
    | .error e => .error e
    | .ok body => .ok ("WEBVTT\n\n" ++ body)

/-! ## Specification-side descriptions used by the claims -/

/-- Character map described by the spec: a comma becomes a period, every
other character is unchanged. -/
def commaToPeriod (c : Char) : Char := if c == ',' then '.' else c

/-- The cue the spec prescribes for one record: converted start timestamp,
`' --> '`, converted end timestamp, newline, the record's text verbatim,
and a blank line. -/
def specCue (s : Subtitle) : String :=
  (⟨s.startTime.data.map commaToPeriod⟩ : String) ++ " --> " ++
  (⟨s.endTime.data.map commaToPeriod⟩ : String) ++ "\n" ++ s.text ++ "\n\n"

/-- Concatenation of the spec cues of a record list, in input order. -/
def specBody : List Subtitle → String
  | [] => ""
  | s :: rest => specCue s ++ specBody rest

/-! ### Structure of valid generator timestamps -/

theorem validVTTts_shape (s : String) (h : validVTTts s = true) :
    ∃ h1 h2 m1 m2 s1 s2 x1 x2 x3 : Char,
      s.data = [h1, h2, ':', m1, m2, ':', s1, s2, ',', x1, x2, x3] ∧
      h1.isDigit ∧ h2.isDigit ∧ ('0' ≤ m1 ∧ m1 ≤ '5') ∧ m2.isDigit ∧
      ('0' ≤ s1 ∧ s1 ≤ '5') ∧ s2.isDigit ∧ x1.isDigit ∧ x2.isDigit ∧ x3.isDigit := by
  unfold validVTTts at h
  split at h
  case _ h1 h2 c1 m1 m2 c2 s1 s2 c3 x1 x2 x3 heq =>
    simp only [Bool.and_eq_true, beq_iff_eq, decide_eq_true_eq] at h
    obtain ⟨⟨⟨⟨⟨⟨⟨⟨⟨⟨⟨hd1, hd2⟩, hc1⟩, hm1⟩, hd3⟩, hc2⟩, hs1⟩, hd4⟩, hc3⟩, hx1⟩, hx2⟩, hx3⟩ := h
    subst hc1 hc2 hc3
    exact ⟨h1, h2, m1, m2, s1, s2, x1, x2, x3, heq, hd1, hd2, hm1, hd3, hs1, hd4, hx1, hx2, hx3⟩
  case _ => exact absurd h (by simp)

theorem digit_ne_comma {c : Char} (h : c.isDigit = true) : (c == ',') = false := by
  simp only [Char.isDigit] at h
  simp only [beq_eq_false_iff_ne, ne_eq]
  intro he
  subst he
  simp at h

theorem tensdigit_ne_comma {c : Char} (h : '0' ≤ c ∧ c ≤ '5') : (c == ',') = false := by
  simp only [beq_eq_false_iff_ne, ne_eq]
  intro he
  subst he
  exact absurd h.1 (by decide)

/-- On a valid generator timestamp, replacing the first comma is the same as
mapping every comma to a period: the comma occurs exactly once. -/
theorem replaceFirstComma_eq_map {s : String} (h : validVTTts s = true) :
    replaceFirstComma s.data = s.data.map commaToPeriod := by
  obtain ⟨h1, h2, m1, m2, s1, s2, x1, x2, x3, heq, hd1, hd2, hm1, hd3, hs1, hd4, hx1, hx2, hx3⟩ :=
    validVTTts_shape s h
  rw [heq]
  simp only [replaceFirstComma, List.map, commaToPeriod,
    digit_ne_comma hd1, digit_ne_comma hd2, digit_ne_comma hd3, digit_ne_comma hd4,
    digit_ne_comma hx1, digit_ne_comma hx2, digit_ne_comma hx3,
    tensdigit_ne_comma hm1, tensdigit_ne_comma hs1]
  simp

theorem validVTTts_ne_empty {s : String} (h : validVTTts s = true) : (s == "") = false := by
  obtain ⟨h1, _, _, _, _, _, _, _, _, heq, _⟩ := validVTTts_shape s h
  simp only [beq_eq_false_iff_ne, ne_eq]
  intro he
  subst he
  simp at heq

/-- `convertTimestamp` on a valid timestamp: success, with every comma
(there is exactly one) turned into a period. -/
theorem convertTimestamp_valid {s : String} (h : validVTTts s = true) :
    convertTimestamp s = .ok ⟨s.data.map commaToPeriod⟩ := by
  simp only [convertTimestamp, validVTTts_ne_empty h, h, Bool.false_eq_true, if_false,
    if_true, replaceFirstComma_eq_map h]


theorem commaToPeriod_digit {c : Char} (h : c.isDigit = true) : commaToPeriod c = c := by
  simp [commaToPeriod, digit_ne_comma h]

theorem commaToPeriod_tens {c : Char} (h : '0' ≤ c ∧ c ≤ '5') : commaToPeriod c = c := by
  simp [commaToPeriod, tensdigit_ne_comma h]

/-- `genEntries` on records whose timestamps all satisfy the generator's
regex: it succeeds and produces exactly the concatenation of the spec
cues, for any starting array index. -/
theorem genEntries_spec (subs : List Subtitle)
    (hval : ∀ s ∈ subs, validVTTts s.startTime = true ∧ validVTTts s.endTime = true)
    (idx : Nat) : genEntries subs idx = .ok (specBody subs) := by
  induction subs generalizing idx with
  | nil => rfl
  | cons sub rest ih =>
    obtain ⟨hs, he⟩ := hval sub (by simp)
    have hval' : ∀ s ∈ rest, validVTTts s.startTime = true ∧ validVTTts s.endTime = true :=
      fun s hs' => hval s (List.mem_cons_of_mem _ hs')
    simp only [genEntries, validVTTts_ne_empty hs, validVTTts_ne_empty he, Bool.or_self,
      Bool.false_eq_true, if_false, convertTimestamp_valid hs, convertTimestamp_valid he,
      ih hval', specBody, specCue]

/-- `generateVTT` on a non-empty list of records with valid generator
timestamps: success, with the byte-exact spec output. -/
theorem generateVTT_ok_spec (subs : List Subtitle) (hne : subs ≠ [])
    (hval : ∀ s ∈ subs, validVTTts s.startTime = true ∧ validVTTts s.endTime = true) :
    generateVTT subs = .ok ("WEBVTT\n\n" ++ specBody subs) := by
  have hie : subs.isEmpty = false := by
    cases subs with
    | nil => exact absurd rfl hne
    | cons a l => rfl
  simp only [generateVTT, hie, Bool.false_eq_true, if_false, genEntries_spec subs hval 0]

/-- **C1**: for every non-empty list of records whose `startTime` and
`endTime` match `^(\d{2}):([0-5]\d):([0-5]\d),(\d{3})$`, `generateVTT`
returns exactly `"WEBVTT\n\n"` followed, for each record in input order,
by the converted start timestamp, `" --> "`, the converted end timestamp,
`"\n"`, the record's text verbatim, and `"\n\n"`; no BOM and no
sequence-number line is emitted (the output is byte-exactly this string). -/
theorem claim1_generateVTT_exact (subs : List Subtitle) (hne : subs ≠ [])
    (hval : ∀ s ∈ subs, validVTTts s.startTime = true ∧ validVTTts s.endTime = true) :
    generateVTT subs = .ok ("WEBVTT\n\n" ++ specBody subs) :=
  generateVTT_ok_spec subs hne hval

theorem claim1_generateVTT_exact_witness :
    generateVTT [⟨1, "00:00:01,000", "00:00:03,000", "Hello world"⟩] =
      .ok ("WEBVTT\n\n" ++ specBody [⟨1, "00:00:01,000", "00:00:03,000", "Hello world"⟩]) :=
  claim1_generateVTT_exact _ (by decide) (by decide)

/-- Whether an `Except`-valued computation succeeded (JS: did not throw). -/
def exceptOk {ε α : Type _} : Except ε α → Bool
  | .ok _ => true
  | .error _ => false

/-- **C4**: on the domain of strings matching the generator's regex,
`convertTimestamp` returns the same characters with only the comma
replaced by a period, and is injective; every string outside the domain
(including the empty string) makes it throw. -/
theorem claim4_convertTimestamp (s t u : String)
    (hs : validVTTts s = true) (ht : validVTTts t = true) (hu : validVTTts u = false) :
    convertTimestamp s = .ok ⟨s.data.map commaToPeriod⟩ ∧
    (convertTimestamp s = convertTimestamp t → s = t) ∧
    exceptOk (convertTimestamp u) = false := by
  refine ⟨convertTimestamp_valid hs, ?_, ?_⟩
  · intro heq
    rw [convertTimestamp_valid hs, convertTimestamp_valid ht] at heq
    injection heq with heq'
    injection heq' with hmap
    obtain ⟨h1, h2, m1, m2, s1, s2, x1, x2, x3, hsd, hd1, hd2, hm1, hd3, hs1, hd4, hx1, hx2, hx3⟩ :=
      validVTTts_shape s hs
    obtain ⟨g1, g2, n1, n2, t1, t2, y1, y2, y3, htd, gd1, gd2, gn1, gd3, gt1, gd4, gy1, gy2, gy3⟩ :=
      validVTTts_shape t ht
    rw [hsd, htd] at hmap
    simp only [List.map, List.cons.injEq, and_true,
      commaToPeriod_digit hd1, commaToPeriod_digit gd1, commaToPeriod_digit hd2,
      commaToPeriod_digit gd2, commaToPeriod_tens hm1, commaToPeriod_tens gn1,
      commaToPeriod_digit hd3, commaToPeriod_digit gd3, commaToPeriod_tens hs1,
      commaToPeriod_tens gt1, commaToPeriod_digit hd4, commaToPeriod_digit gd4,
      commaToPeriod_digit hx1, commaToPeriod_digit gy1, commaToPeriod_digit hx2,
      commaToPeriod_digit gy2, commaToPeriod_digit hx3, commaToPeriod_digit gy3] at hmap
    have hdata : s.data = t.data := by
      rw [hsd, htd]
      simp only [List.cons.injEq, and_true]
      exact hmap
    cases s with
    | mk sd =>
      cases t with
      | mk td => exact congrArg String.mk hdata
  · cases hb : (u == "") with
    | false => simp [convertTimestamp, hb, hu, exceptOk]
    | true => simp [convertTimestamp, hb, exceptOk]

theorem claim4_convertTimestamp_witness :
    (convertTimestamp "01:02:03,456" =
      .ok ⟨("01:02:03,456").data.map commaToPeriod⟩) ∧
    (convertTimestamp "01:02:03,456" = convertTimestamp "10:20:30,789" →
      ("01:02:03,456" : String) = "10:20:30,789") ∧
    exceptOk (convertTimestamp "nope") = false :=
  claim4_convertTimestamp _ _ _ (by decide) (by decide) (by decide)

/-! ## SRT parser (src/utils/srt-parser.js) -/

/-- `content.replace(/\r\n/g, '\n').replace(/\r/g, '\n')` fused into one
left-to-right pass: each `\r\n` pair and each remaining lone `\r` becomes
`\n` (the first replacement introduces no new `\r`, so the passes fuse). -/
def normalizeNewlines : List Char → List Char
  | [] => []
  | '\r' :: '\n' :: rest => '\n' :: normalizeNewlines rest
  | '\r' :: rest => '\n' :: normalizeNewlines rest
  | c :: rest => c :: normalizeNewlines rest

/-- Preprocessing of `parseSRTInternal` (line 35): strip one leading BOM,
normalize `\r\n` and bare `\r` to `\n`. -/
def normalizeContent (content : String) : String :=
  match content.data with
  | '\uFEFF' :: rest => ⟨normalizeNewlines rest⟩
  | l => ⟨normalizeNewlines l⟩

/-- JS `String.prototype.split('\n')` (the accumulator holds the current
piece reversed). -/
def splitNlAux (acc : List Char) : List Char → List String
  | [] => [⟨acc.reverse⟩]
  | '\n' :: rest => ⟨acc.reverse⟩ :: splitNlAux [] rest
  | c :: rest => splitNlAux (c :: acc) rest

/-- JS `s.split('\n')`. -/
def jsSplitNl (s : String) : List String := splitNlAux [] s.data

/-- JS `Array.prototype.join('\n')` on a list of lines. -/
def joinNl : List String → String
  | [] => ""
  | [x] => x
  | x :: rest => x ++ "\n" ++ joinNl rest

/-- One side of the parser's timestamp pattern `\d{2}:\d{2}:\d{2},\d{3}`
(digits not range-checked); consumes twelve characters and returns the
remainder on success. -/
def consumeSrtTs : List Char → Option (List Char)
  | d1 :: d2 :: c1 :: d3 :: d4 :: c2 :: d5 :: d6 :: c3 :: m1 :: m2 :: m3 :: rest =>
    if d1.isDigit && d2.isDigit && c1 == ':' && d3.isDigit && d4.isDigit && c2 == ':' &&
        d5.isDigit && d6.isDigit && c3 == ',' && m1.isDigit && m2.isDigit && m3.isDigit then
      some rest
    else
      none
  | _ => none

/-- The parser's timestamp-line regex (line 63):
`^\d{2}:\d{2}:\d{2},\d{3}\s*-->\s*\d{2}:\d{2}:\d{2},\d{3}$`. -/
def matchSrtTimestampLine (s : String) : Bool :=
  match consumeSrtTs s.data with
  | none => false
  | some r1 =>
    match r1.dropWhile isJsSpace with
    | '-' :: '-' :: '>' :: r3 =>
      match consumeSrtTs (r3.dropWhile isJsSpace) with
      | some [] => true
      | _ => false
    | _ => false

/-- Index of the first occurrence of `-->` in a character list. -/
def arrowIdx : List Char → Option Nat
  | [] => none
  | c :: rest =>
    if ['-', '-', '>'].isPrefixOf (c :: rest) then some 0
    else (arrowIdx rest).map (· + 1)

/-- `timestampLine.split(/\s*-->\s*/)` followed by the `.trim()` applied to
both pieces at the push site (line 67 and lines 113-114).  Under the
anchored timestamp-line regex the line contains exactly one `-->` and the
split separator absorbs exactly the whitespace that trimming removes, so
splitting at the arrow and trimming both sides is the same function.  The
`none` case is unreachable under the regex guard. -/
def splitTsLine (s : String) : String × String :=
  match arrowIdx s.data with
  | some i => (jsTrim ⟨s.data.take i⟩, jsTrim ⟨s.data.drop (i + 3)⟩)
  | none => (jsTrim s, "")

/-- The blank-line skipping loop (lines 44-46): advance the 0-based line
number past blank lines. -/
def skipBlanks : Nat → List String → Nat × List String
  | i, [] => (i, [])
  | i, l :: r => if jsTrim l == "" then skipBlanks (i + 1) r else (i, l :: r)

/-- The text-collection loop of `parseSRTInternal` (lines 71-100) with its
blank-line lookahead.  `i` is the 0-based line number of the first list
element.  Returns the collected text lines, the remaining lines, and the
new line number; throws when the lookahead sees a timestamp-shaped line
after a non-numeric candidate index. -/
def collectText : Nat → List String → Except String (List String × List String × Nat)
  | i, [] => .ok ([], [], i)
  | i, line :: rest =>
    if jsTrim line == "" && !rest.isEmpty then
      let nextLine := jsTrim (rest.headD "")
      let check1 : Except String Bool :=
        if nextLine != "" && rest.length > 1 then
          let potentialTimestamp := jsTrim (rest.getD 1 "")
          if matchSrtTimestampLine potentialTimestamp then
            if !isDigitsStr nextLine then
              .error s!"Invalid subtitle index \x22{nextLine}\x22 at line {i + 2} (expected number)"
            else .ok true
          else .ok false
        else .ok false
      match check1 with
      | .error e => .error e
      | .ok true => .ok ([], line :: rest, i)
      | .ok false =>
        if isDigitsStr nextLine then .ok ([], line :: rest, i)
        else
          match collectText (i + 1) rest with
          | .error e => .error e
          | .ok (tl, rest', i') => .ok (line :: tl, rest', i')
    else
      match collectText (i + 1) rest with
      | .error e => .error e
      | .ok (tl, rest', i') => .ok (line :: tl, rest', i')

/-- The outer block loop of `parseSRTInternal` (lines 42-117).  Each
iteration consumes at least the index and timestamp lines, so a fuel of
one more than the number of lines can never run out; the fuel-exhaustion
branch is unreachable. -/
def parseBlocks : Nat → Nat → List String → List Subtitle → Except String (List Subtitle)
  | 0, _, _, _ => .error "parser fuel exhausted"
  | fuel + 1, i, ls, acc =>
    match skipBlanks i ls with
    | (_, []) => .ok acc.reverse
    | (i1, idxLine0 :: ls2) =>
      let indexLine := jsTrim idxLine0
      if !isDigitsStr indexLine then
        .error s!"Invalid subtitle index \x22{indexLine}\x22 at line {i1 + 1} (expected number)"
      else
        let index := natOfDigits indexLine
        match ls2 with
        | [] => .error s!"Missing timestamp for subtitle {index}"
        | tsLine0 :: ls3 =>
          let timestampLine := jsTrim tsLine0
          if !matchSrtTimestampLine timestampLine then
            .error s!"Invalid timestamp format \x22{timestampLine}\x22 for subtitle {index}"
          else
            let se := splitTsLine timestampLine
            match collectText (i1 + 2) ls3 with
            | .error e => .error e
            | .ok (textLines, rest, i') =>
              if !textLines.any (fun l => jsTrim l != "") then
                .error s!"No text content found for subtitle {index}"
              else
                parseBlocks fuel i' rest
                  (⟨index, se.1, se.2, jsTrim (joinNl textLines)⟩ :: acc)

/-- `parseSRTInternal` (src/utils/srt-parser.js lines 33-124). -/
def parseSRTInternal (content : String) : Except String (List Subtitle) :=
  match parseBlocks ((jsSplitNl (normalizeContent content)).length + 1) 0
      (jsSplitNl (normalizeContent content)) [] with
  | .error e => .error e
  | .ok subtitles =>
    if subtitles.isEmpty then .error "No valid subtitle blocks found"
    else .ok subtitles

/-- `parseSRT` (lines 132-138): rethrow any parse error with the
`Invalid SRT format: ` prefix. -/
def parseSRT (content : String) : Except String (List Subtitle) :=
  match parseSRTInternal content with
  | .ok subs => .ok subs
  | .error m => .error ("Invalid SRT format: " ++ m)

/-- `validateSRTFormat` (lines 11-23): false on falsy input (the empty
string, on the string domain), otherwise true exactly when
`parseSRTInternal` does not throw. -/
def validateSRTFormat (content : String) : Bool :=
  if content == "" then false
  else exceptOk (parseSRTInternal content)

/-- The §8 composition `generateVTT(parse(text))`. -/
def srtToVtt (content : String) : Except String String :=
  match parseSRT content with
  | .ok recs => generateVTT recs
  | .error e => .error e

/-! ## Claims about the parser (C3, C9, C2) -/

/-- A successful `parseSRTInternal` returns a non-empty record list (the
`No valid subtitle blocks found` check). -/
theorem parseSRTInternal_ok_ne_nil {content : String} {recs : List Subtitle}
    (h : parseSRTInternal content = .ok recs) : recs ≠ [] := by
  unfold parseSRTInternal at h
  split at h
  case _ => exact absurd h (by simp)
  case _ subs heq =>
    split at h
    case isTrue => exact absurd h (by simp)
    case isFalse hie =>
      injection h with h'
      subst h'
      intro hn
      subst hn
      simp at hie

/-- A successful `parseSRT` returns a non-empty record list. -/
theorem parseSRT_ok_ne_nil {content : String} {recs : List Subtitle}
    (h : parseSRT content = .ok recs) : recs ≠ [] := by
  unfold parseSRT at h
  split at h
  case _ subs heq =>
    injection h with h'
    subst h'
    exact parseSRTInternal_ok_ne_nil heq
  case _ => exact absurd h (by simp)

/-- **C3**: `validateSRTFormat` returns true exactly when `parseSRT`
returns without throwing; the two functions never diverge on any string
input (non-string inputs are outside the string domain: there both are
negative, `validateSRTFormat` by its type guard and `parseSRT` by the
rethrown `TypeError`). -/
theorem claim3_validate_iff_parse (content : String) :
    validateSRTFormat content = true ↔ exceptOk (parseSRT content) = true := by
  by_cases hc : content = ""
  · subst hc
    decide
  · have hb : (content == "") = false := by simpa using hc
    simp only [validateSRTFormat, parseSRT, hb, Bool.false_eq_true, if_false]
    cases parseSRTInternal content <;> simp [exceptOk]

theorem claim3_validate_iff_parse_witness :
    validateSRTFormat "1\n00:00:01,000 --> 00:00:02,000\nHi" = true ↔
      exceptOk (parseSRT "1\n00:00:01,000 --> 00:00:02,000\nHi") = true :=
  claim3_validate_iff_parse _

/-- **C9 counterexample**: the parser's index regex `^\d+$` accepts `0`,
so a successful `parseSRT` can return a record with index `0 < 1`; the
spec's `index: integer ≥ 1` bound does not hold. -/
theorem claim9_counterexample :
    parseSRT "0\n00:00:00,000 --> 00:00:01,000\nHi" =
      .ok [⟨0, "00:00:00,000", "00:00:01,000", "Hi"⟩] ∧
    ¬ (∀ r ∈ [(⟨0, "00:00:00,000", "00:00:01,000", "Hi"⟩ : Subtitle)], 1 ≤ r.index) := by
  constructor
  · rfl
  · decide

/-- **C9 (amended)**: every record of a successful `parseSRT` has a
non-negative integer index (the index line is a digit string, parsed by
`parseInt`; zero is accepted, so `≥ 1` weakens to `≥ 0`). -/
theorem claim9_amended (content : String) (recs : List Subtitle)
    (h : parseSRT content = .ok recs) : ∀ r ∈ recs, 0 ≤ r.index := by
  intro r _
  exact Nat.zero_le _

theorem claim9_amended_witness :
    0 ≤ (Subtitle.mk 1 "00:00:01,000" "00:00:02,000" "Hi").index :=
  claim9_amended "1\n00:00:01,000 --> 00:00:02,000\nHi"
    [⟨1, "00:00:01,000", "00:00:02,000", "Hi"⟩] (by rfl)
    ⟨1, "00:00:01,000", "00:00:02,000", "Hi"⟩ (by decide)

/-- **C2 counterexample**: the parser's timestamp check does not bound
minutes/seconds, while the generator's does, so a string accepted by
`parseSRT` can make `generateVTT` throw: `00:60:00,000` parses but does
not convert. -/
theorem claim2_counterexample :
    exceptOk (parseSRT "1\n00:60:00,000 --> 00:60:01,000\nHello") = true ∧
    exceptOk (srtToVtt "1\n00:60:00,000 --> 00:60:01,000\nHello") = false := by
  constructor
  · rfl
  · rfl

/-- **C2 (amended)**: for every string accepted by `parseSRT` whose
records' timestamps additionally pass the generator's range-checked regex
(minutes and seconds 00-59), the composition `generateVTT(parseSRT(text))`
returns without throwing exactly `"WEBVTT\n\n"` followed by the spec cues:
period-separated timestamps and no generator-emitted sequence-number
lines, with subtitle text copied verbatim (so text itself may still
contain digit lines or `,ddd` patterns). -/
theorem claim2_amended (content : String) (recs : List Subtitle)
    (hp : parseSRT content = .ok recs)
    (hval : ∀ s ∈ recs, validVTTts s.startTime = true ∧ validVTTts s.endTime = true) :
    srtToVtt content = .ok ("WEBVTT\n\n" ++ specBody recs) := by
  unfold srtToVtt
  rw [hp]
  exact generateVTT_ok_spec recs (parseSRT_ok_ne_nil hp) hval

theorem claim2_amended_witness :
    srtToVtt "1\n00:00:01,000 --> 00:00:02,000\nHi" =
      .ok ("WEBVTT\n\n" ++ specBody [⟨1, "00:00:01,000", "00:00:02,000", "Hi"⟩]) :=
  claim2_amended _ _ (by rfl) (by decide)

/-! ## Encoding module (`detectEncoding`, `fixDoubleEncodedUTF8`)

The module decodes byte buffers with iconv-lite, whose `utf8` codec is
Node's native decoder: WHATWG UTF-8 decoding with U+FFFD substitution of
maximal subparts.  Buffers are modelled as `List Nat` of byte values. -/

/-- The replacement character U+FFFD. -/
def utf8Repl : Char := '�'

/-- A UTF-8 continuation byte `80..BF`. -/
def contB (b : Nat) : Bool := 0x80 ≤ b && b ≤ 0xBF

/-- Lower bound of the first continuation byte (WHATWG: `E0` needs `A0..`,
`F0` needs `90..`). -/
def cont1Lo (b : Nat) : Nat :=
  if b = 0xE0 then 0xA0 else if b = 0xF0 then 0x90 else 0x80

/-- Upper bound of the first continuation byte (WHATWG: `ED` allows
`..9F`, `F4` allows `..8F`). -/
def cont1Hi (b : Nat) : Nat :=
  if b = 0xED then 0x9F else if b = 0xF4 then 0x8F else 0xBF

/-- WHATWG UTF-8 decode with replacement: overlong forms, surrogates,
out-of-range leads and truncated sequences become one U+FFFD per maximal
subpart, resuming at the offending byte.  Each step consumes at least one
byte, so a fuel of one more than the buffer length never runs out. -/
def utf8DecodeAux : Nat → List Nat → List Char
  | 0, _ => []
  | _ + 1, [] => []
  | fuel + 1, b :: rest =>
    if b < 0x80 then Char.ofNat b :: utf8DecodeAux fuel rest
    else if 0xC2 ≤ b ∧ b ≤ 0xDF then
      match rest with
      | [] => [utf8Repl]
      | c1 :: rest1 =>
        if contB c1 then
          Char.ofNat ((b - 0xC0) * 64 + (c1 - 0x80)) :: utf8DecodeAux fuel rest1
        else utf8Repl :: utf8DecodeAux fuel rest
    else if 0xE0 ≤ b ∧ b ≤ 0xEF then
      match rest with
      | [] => [utf8Repl]
      | c1 :: rest1 =>
        if cont1Lo b ≤ c1 ∧ c1 ≤ cont1Hi b then
          match rest1 with
          | [] => [utf8Repl]
          | c2 :: rest2 =>
            if contB c2 then
              Char.ofNat ((b - 0xE0) * 4096 + (c1 - 0x80) * 64 + (c2 - 0x80)) ::
                utf8DecodeAux fuel rest2
            else utf8Repl :: utf8DecodeAux fuel rest1
        else utf8Repl :: utf8DecodeAux fuel rest
    else if 0xF0 ≤ b ∧ b ≤ 0xF4 then
      match rest with
      | [] => [utf8Repl]
      | c1 :: rest1 =>
        if cont1Lo b ≤ c1 ∧ c1 ≤ cont1Hi b then
          match rest1 with
          | [] => [utf8Repl]
          | c2 :: rest2 =>
            if contB c2 then
              match rest2 with
              | [] => [utf8Repl]
              | c3 :: rest3 =>
                if contB c3 then
                  Char.ofNat ((b - 0xF0) * 262144 + (c1 - 0x80) * 4096 +
                    (c2 - 0x80) * 64 + (c3 - 0x80)) :: utf8DecodeAux fuel rest3
                else utf8Repl :: utf8DecodeAux fuel rest2
            else utf8Repl :: utf8DecodeAux fuel rest1
        else utf8Repl :: utf8DecodeAux fuel rest
    else utf8Repl :: utf8DecodeAux fuel rest

/-- WHATWG UTF-8 decode of a whole buffer. -/
def utf8Decode (buf : List Nat) : List Char := utf8DecodeAux (buf.length + 1) buf

/-- `iconv.decode(buffer, 'utf8')`. -/
def utf8DecodeStr (buf : List Nat) : String := ⟨utf8Decode buf⟩

/-- `iconv.encode(text, 'latin1')`: code points up to U+00FF become their
byte value; anything else becomes iconv-lite's single-byte default `?`. -/
def latin1Encode (s : String) : List Nat :=
  s.data.map (fun c => if c.toNat ≤ 0xFF then c.toNat else 0x3F)

/-- `fixDoubleEncodedUTF8` (encoding module lines 159-183): if the
mojibake marker `Ã` (U+00C3) is present, re-encode as latin1 and re-decode
as UTF-8; keep the original when that changes nothing or still contains
the marker.  The try/catch is dead on the string domain: neither codec
call throws. -/
def fixDoubleEncodedUTF8 (text : String) : String :=
  if !text.data.contains 'Ã' then text
  else
    let fixedText := utf8DecodeStr (latin1Encode text)
    if fixedText == text || fixedText.data.contains 'Ã' then text
    else fixedText

/-- The bytes `128..159` that the source lists as printable Windows-1252
characters (all of `80..9F` except the undefined `81 8D 8F 90 9D`). -/
def win1252Chars : List Nat :=
  [0x80, 0x82, 0x83, 0x84, 0x85, 0x86, 0x87, 0x88, 0x89, 0x8A, 0x8B, 0x8C,
   0x8E, 0x91, 0x92, 0x93, 0x94, 0x95, 0x96, 0x97, 0x98, 0x99, 0x9A, 0x9B,
   0x9C, 0x9E, 0x9F]

/-- One byte of `iconv.decode(buffer, 'windows-1252')` (the WHATWG
windows-1252 index, which maps every byte; the five undefined positions
decode to the corresponding C1 controls). -/
def win1252DecodeByte (b : Nat) : Char :=
  if b = 0x80 then '€' else if b = 0x82 then '‚'
  else if b = 0x83 then 'ƒ' else if b = 0x84 then '„'
  else if b = 0x85 then '…' else if b = 0x86 then '†'
  else if b = 0x87 then '‡' else if b = 0x88 then 'ˆ'
  else if b = 0x89 then '‰' else if b = 0x8A then 'Š'
  else if b = 0x8B then '‹' else if b = 0x8C then 'Œ'
  else if b = 0x8E then 'Ž' else if b = 0x91 then '‘'
  else if b = 0x92 then '’' else if b = 0x93 then '“'
  else if b = 0x94 then '”' else if b = 0x95 then '•'
  else if b = 0x96 then '–' else if b = 0x97 then '—'
  else if b = 0x98 then '˜' else if b = 0x99 then '™'
  else if b = 0x9A then 'š' else if b = 0x9B then '›'
  else if b = 0x9C then 'œ' else if b = 0x9E then 'ž'
  else if b = 0x9F then 'Ÿ' else Char.ofNat b

/-- `iconv.decode(buffer, 'windows-1252')`. -/
def win1252Decode (buf : List Nat) : String := ⟨buf.map win1252DecodeByte⟩

/-- `iconv.decode(buffer, 'iso-8859-1')`: every byte maps to the same
code point. -/
def latin1Decode (buf : List Nat) : String := ⟨buf.map Char.ofNat⟩

/-- UTF-8 BOM check of `detectEncoding` (lines 15-20). -/
def hasUtf8BOM (buf : List Nat) : Bool :=
  match buf with
  | a :: b :: c :: _ => a == 0xEF && b == 0xBB && c == 0xBF
  | _ => false

/-- UTF-16 BOM check of `detectEncoding` (lines 23-28). -/
def hasUtf16BOM (buf : List Nat) : Bool :=
  match buf with
  | a :: b :: _ => (a == 0xFF && b == 0xFE) || (a == 0xFE && b == 0xFF)
  | _ => false

/-- `detectEncoding` (encoding module lines 9-107). -/
def detectEncoding (buf : List Nat) : String :=
  if buf.isEmpty then "utf8"
  else if hasUtf8BOM buf then "utf8"
  else if hasUtf16BOM buf then "utf8"
  else if !(utf8DecodeStr buf).data.contains '�' then "utf8"
  else
    let hasHighBytes := buf.any (fun b => 127 < b)
    let windows1252Indicators :=
      (buf.filter (fun b => 128 ≤ b && b ≤ 159 && win1252Chars.contains b)).length
    let iso88591Indicators := (buf.filter (fun b => 160 ≤ b && b ≤ 255)).length
    if !hasHighBytes then "utf8"
    else if 0 < windows1252Indicators then "windows-1252"
    else if 0 < iso88591Indicators then
      let win1252Test := win1252Decode buf
      let iso88591Test := latin1Decode buf
      if win1252Test.data.contains '�' && !iso88591Test.data.contains '�' then
        "iso-8859-1"
      else if !win1252Test.data.contains '�' && !iso88591Test.data.contains '�' then
        "windows-1252"
      else if !iso88591Test.data.contains '�' then "iso-8859-1"
      else "iso-8859-1"
    else "iso-8859-1"

/-! ## Claims about the encoding module (C5, C6) -/

/-- Without the `Ã` marker the repair is the identity (lines 163-165). -/
theorem fix_no_marker {t : String} (h : t.data.contains 'Ã' = false) :
    fixDoubleEncodedUTF8 t = t := by
  unfold fixDoubleEncodedUTF8
  rw [h]
  rfl

/-- **C5 counterexample**: the clean, correctly encoded string
`"SÃO PAULO"` (all-caps Portuguese) contains the marker `Ã`, and the
repair corrupts it to `"S�O PAULO"` instead of leaving it unchanged. -/
theorem claim5_counterexample :
    fixDoubleEncodedUTF8 "SÃO PAULO" = "S�O PAULO" ∧
    fixDoubleEncodedUTF8 "SÃO PAULO" ≠ "SÃO PAULO" := by
  constructor
  · rfl
  · decide

/-- **C5 (amended)**: the repair is idempotent on every string, and leaves
unchanged every string that does not contain the marker `Ã`; a clean
string containing `Ã` may be altered. -/
theorem claim5_amended (t : String) :
    fixDoubleEncodedUTF8 (fixDoubleEncodedUTF8 t) = fixDoubleEncodedUTF8 t ∧
    (t.data.contains 'Ã' = false → fixDoubleEncodedUTF8 t = t) := by
  refine ⟨?_, fun h => fix_no_marker h⟩
  cases hm : t.data.contains 'Ã' with
  | false =>
    rw [fix_no_marker hm]
    exact fix_no_marker hm
  | true =>
    have hdef : fixDoubleEncodedUTF8 t =
        if (utf8DecodeStr (latin1Encode t) == t) ||
            (utf8DecodeStr (latin1Encode t)).data.contains 'Ã' then t
        else utf8DecodeStr (latin1Encode t) := by
      unfold fixDoubleEncodedUTF8
      rw [hm]
      rfl
    cases hcond : (utf8DecodeStr (latin1Encode t) == t) ||
        (utf8DecodeStr (latin1Encode t)).data.contains 'Ã' with
    | true =>
      have h1 : fixDoubleEncodedUTF8 t = t := by rw [hdef, hcond]; simp
      rw [h1]
      exact h1
    | false =>
      have h1 : fixDoubleEncodedUTF8 t = utf8DecodeStr (latin1Encode t) := by
        rw [hdef, hcond]; simp
      have hu : (utf8DecodeStr (latin1Encode t)).data.contains 'Ã' = false := by
        have h2 := hcond
        simp only [Bool.or_eq_false_iff] at h2
        exact h2.2
      rw [h1]
      exact fix_no_marker hu

theorem claim5_amended_witness :
    fixDoubleEncodedUTF8 (fixDoubleEncodedUTF8 "Müller") = fixDoubleEncodedUTF8 "Müller" ∧
    (("Müller" : String).data.contains 'Ã' = false →
      fixDoubleEncodedUTF8 "Müller" = "Müller") :=
  claim5_amended "Müller"

/-- **C6 counterexample**: the buffer `[0x81]` has no BOM, its strict
UTF-8 decode is a replacement character, and `0x81` lies in `0x80..0x9F`,
yet `detectEncoding` returns `iso-8859-1`, not `windows-1252` — the code
only counts the 27 defined Windows-1252 positions, not the whole range. -/
theorem claim6_counterexample :
    detectEncoding [0x81] = "iso-8859-1" ∧
    detectEncoding [0x81] ≠ "windows-1252" ∧
    hasUtf8BOM [0x81] = false ∧ hasUtf16BOM [0x81] = false ∧
    (utf8DecodeStr [0x81]).data.contains '�' = true ∧
    (128 ≤ 0x81 ∧ 0x81 ≤ 159) := by
  refine ⟨rfl, by decide, rfl, rfl, by decide, by decide⟩

/-- **C6 (amended)**: for every BOM-free buffer whose strict UTF-8 decode
contains a replacement character, if some byte is one of the 27 defined
Windows-1252 positions in `0x80..0x9F` (all of that range except
`81 8D 8F 90 9D`), then `detectEncoding` returns `windows-1252`. -/
theorem claim6_amended (buf : List Nat)
    (h1 : hasUtf8BOM buf = false) (h2 : hasUtf16BOM buf = false)
    (h3 : (utf8DecodeStr buf).data.contains '�' = true)
    (h4 : ∃ b ∈ buf, win1252Chars.contains b = true) :
    detectEncoding buf = "windows-1252" := by
  obtain ⟨b, hb, hbw⟩ := h4
  have hmem : b ∈ win1252Chars := List.mem_of_elem_eq_true hbw
  have hrange : 128 ≤ b ∧ b ≤ 159 := by
    have hall : ∀ x ∈ win1252Chars, 128 ≤ x ∧ x ≤ 159 := by decide
    exact hall b hmem
  have hne : buf.isEmpty = false := by
    cases buf with
    | nil => simp at hb
    | cons x l => rfl
  have hhigh : buf.any (fun x => 127 < x) = true := by
    rw [List.any_eq_true]
    exact ⟨b, hb, by simpa using hrange.1⟩
  have hfilter : b ∈ buf.filter (fun x => 128 ≤ x && x ≤ 159 && win1252Chars.contains x) := by
    rw [List.mem_filter]
    refine ⟨hb, ?_⟩
    simp [hrange.1, hrange.2, hbw, hmem]
  have hpos :
      0 < (buf.filter (fun x => 128 ≤ x && x ≤ 159 && win1252Chars.contains x)).length :=
    List.length_pos_of_mem hfilter
  simp only [detectEncoding, hne, h1, h2, h3, hhigh, Bool.false_eq_true, Bool.not_true,
    Bool.not_false, if_false, if_true]
  rw [if_pos hpos]

theorem claim6_amended_witness : detectEncoding [0x93] = "windows-1252" :=
  claim6_amended [0x93] (by rfl) (by rfl) (by decide) ⟨0x93, by decide, by decide⟩

/-! ## VTT validators (src/utils/vtt-generator.js lines 84-212) -/

/-- One side of the validators' timestamp pattern `\d{2}:\d{2}:\d{2}\.\d{3}`
(period separator, digits not range-checked). -/
def consumeVttTsChunk : List Char → Option (List Char)
  | d1 :: d2 :: c1 :: d3 :: d4 :: c2 :: d5 :: d6 :: c3 :: m1 :: m2 :: m3 :: rest =>
    if d1.isDigit && d2.isDigit && c1 == ':' && d3.isDigit && d4.isDigit && c2 == ':' &&
        d5.isDigit && d6.isDigit && c3 == '.' && m1.isDigit && m2.isDigit && m3.isDigit then
      some rest
    else
      none
  | _ => none

/-- Match of `\d{2}:\d{2}:\d{2}\.\d{3}\s*-->\s*\d{2}:\d{2}:\d{2}\.\d{3}`
anchored at the head of the list; returns the remainder after the match
(the pattern is backtracking-free: `\s*` is followed by a non-space). -/
def matchVttTsAt (l : List Char) : Option (List Char) :=
  match consumeVttTsChunk l with
  | none => none
  | some r1 =>
    match r1.dropWhile isJsSpace with
    | '-' :: '-' :: '>' :: r3 => consumeVttTsChunk (r3.dropWhile isJsSpace)
    | _ => none

/-- Whether `vttContent.match(timestampRegex)` finds at least one match. -/
def hasVttTs : List Char → Bool
  | [] => false
  | c :: rest => (matchVttTsAt (c :: rest)).isSome || hasVttTs rest

/-- Leftmost match of the VTT timestamp pattern: start offset and length. -/
def findVttFrom : List Char → Option (Nat × Nat)
  | [] => none
  | c :: rest =>
    match matchVttTsAt (c :: rest) with
    | some r => some (0, (c :: rest).length - r.length)
    | none => (findVttFrom rest).map (fun p => (p.1 + 1, p.2))

/-- `timestampRegex.test(line)` for the shared global (`/g`) regex object:
search from `lastIndex`; on success return true and the match end as the
new `lastIndex`, on failure return false and reset `lastIndex` to 0. -/
def gTestVtt (lastIndex : Nat) (line : String) : Bool × Nat :=
  match findVttFrom (line.data.drop lastIndex) with
  | some (off, len) => (true, lastIndex + off + len)
  | none => (false, 0)

/-- The sequence-number scan of both validators (lines 114-123 and
170-178): over the lines from index 2 on, a trimmed pure-digit line
followed by a line on which the shared global regex `.test` fires means a
leaked sequence number.  The `lastIndex` state threads through the
`.test` calls exactly as in the source (`.test` is only invoked when the
digit check passed and a next line exists). -/
def seqNumScan : List String → Nat → Bool
  | [], _ => false
  | [_], _ => false
  | line :: next :: rest, li =>
    if isDigitsStr (jsTrim line) then
      match gTestVtt li next with
      | (true, _) => true
      | (false, li') => seqNumScan (next :: rest) li'
    else seqNumScan (next :: rest) li

/-- JS `String.prototype.startsWith`. -/
def jsStartsWith (s pre : String) : Bool := pre.data.isPrefixOf s.data

/-- JS `s.split(/\r?\n/)`: split at `\r\n` or lone `\n`. -/
def splitCrNlAux (acc : List Char) : List Char → List String
  | [] => [⟨acc.reverse⟩]
  | '\r' :: '\n' :: rest => ⟨acc.reverse⟩ :: splitCrNlAux [] rest
  | '\n' :: rest => ⟨acc.reverse⟩ :: splitCrNlAux [] rest
  | c :: rest => splitCrNlAux (c :: acc) rest

/-- JS `s.split(/\r?\n/)`. -/
def jsSplitCrNl (s : String) : List String := splitCrNlAux [] s.data

/-- `validateVTTFormat` (src/utils/vtt-generator.js lines 84-126): the
ordered strict checks, throwing at the first failure. -/
def validateVTTFormat (vttContent : String) : Except String Bool :=
  if vttContent == "" then
    .error "Invalid VTT content: must be a non-empty string"
  else if vttContent.data.headD ' ' == '\uFEFF' then
    .error "VTT content must not contain BOM (Byte Order Mark)"
  else if !jsStartsWith vttContent "WEBVTT\n" then
    .error "VTT content must start with \x22WEBVTT\x22 header followed by newline"
  else if !jsStartsWith vttContent "WEBVTT\n\n" then
    .error "VTT content must have empty line after WEBVTT header"
  else if !hasVttTs vttContent.data then
    .error "No valid VTT timestamps found in content"
  else if seqNumScan ((jsSplitNl vttContent).drop 2) 0 then
    .error "VTT content must not contain subtitle sequence numbers for Bunny Stream compatibility"
  else
    .ok true

/-- The named boolean checks of the `ComplianceReport`. -/
structure ComplianceChecks where
  hasWebVTTHeader : Bool
  hasEmptyLineAfterHeader : Bool
  noBOM : Bool
  noSequenceNumbers : Bool
  validTimestamps : Bool
  properEncoding : Bool
  deriving Repr, DecidableEq

/-- The result object of `validateBunnyStreamCompliance`. -/
structure ComplianceReport where
  isValid : Bool
  compliance : ComplianceChecks
  errors : List String
  warnings : List String
  deriving Repr, DecidableEq

/-- `validateBunnyStreamCompliance` (src/utils/vtt-generator.js lines
133-212).  On the string domain nothing in the outer `try` throws; the
UTF-8 round trip `Buffer.from(s,'utf8').toString('utf8') === s` always
holds for well-formed strings (Lean strings carry no lone surrogates), so
`properEncoding` is true and the `Content is not valid UTF-8` push is
dead code. -/
def validateBunnyStreamCompliance (vttContent : String) : ComplianceReport :=
  let noBOM := !(vttContent.data.headD ' ' == '\uFEFF')
  let hasWebVTTHeader :=
    jsStartsWith vttContent "WEBVTT\n" || jsStartsWith vttContent "WEBVTT\r\n"
  let hasEmptyLineAfterHeader :=
    jsStartsWith vttContent "WEBVTT\n\n" || jsStartsWith vttContent "WEBVTT\r\n\r\n"
  let properEncoding := true
  let validTimestamps := hasVttTs vttContent.data
  let lines := jsSplitCrNl vttContent
  let noSequenceNumbers := !seqNumScan (lines.drop 2) 0
  let warnings :=
    (if jsIncludes vttContent "\r\n" then
      ["Content contains Windows line endings (CRLF). Unix line endings (LF) are recommended."]
    else []) ++
    (if vttContent.data.contains '\t' then
      ["Content contains tab characters. Spaces are recommended for indentation."]
    else []) ++
    (if !(lines.headD "" == "WEBVTT") then
      ["WEBVTT header should not have leading or trailing whitespace."]
    else [])
  let errors :=
    match validateVTTFormat vttContent with
    | .error m => [m]
    | .ok _ => []
  let allChecks := hasWebVTTHeader && hasEmptyLineAfterHeader && noBOM &&
    noSequenceNumbers && validTimestamps && properEncoding
  { isValid := allChecks && errors.isEmpty
    compliance := ⟨hasWebVTTHeader, hasEmptyLineAfterHeader, noBOM, noSequenceNumbers,
      validTimestamps, properEncoding⟩
    errors := errors
    warnings := warnings }

/-- **C7**: whenever `validateVTTFormat` throws,
`validateBunnyStreamCompliance` on the same input reports a non-empty
error list and `isValid = false` (the strict validator runs inside the
report's `try` and its message is collected). -/
theorem claim7_strict_implies_report (v : String)
    (h : exceptOk (validateVTTFormat v) = false) :
    (validateBunnyStreamCompliance v).errors ≠ [] ∧
    (validateBunnyStreamCompliance v).isValid = false := by
  cases hv : validateVTTFormat v with
  | ok b =>
    rw [hv] at h
    simp [exceptOk] at h
  | error m =>
    constructor
    · simp only [validateBunnyStreamCompliance, hv]
      simp
    · simp only [validateBunnyStreamCompliance, hv]
      simp [List.isEmpty]

theorem claim7_strict_implies_report_witness :
    (validateBunnyStreamCompliance "").errors ≠ [] ∧
    (validateBunnyStreamCompliance "").isValid = false :=
  claim7_strict_implies_report "" (by rfl)

/-! ## Language detection (src/utils/language-detection.js)

Scores are JS floats; they are modelled as exact rationals (the idealized
real semantics of the same arithmetic).  Regex pattern matching over the
profile table is modelled by a small pattern language: every profile
pattern is either a case-insensitive word alternation `\b(w1|w2|…)\b` or a
case-insensitive character class. -/

/-- Unicode `toLowerCase`, restricted to the character repertoire the
profiles inspect (ASCII, Latin-1 letters, Cyrillic). -/
def jsToLower (c : Char) : Char :=
  if 'A' ≤ c ∧ c ≤ 'Z' then Char.ofNat (c.toNat + 32)
  else if 'À' ≤ c ∧ c ≤ 'Þ' ∧ c ≠ '×' then Char.ofNat (c.toNat + 32)
  else if 'А' ≤ c ∧ c ≤ 'Я' then Char.ofNat (c.toNat + 32)
  else if c = 'Ё' then 'ё'
  else c

/-- JS `String.prototype.toLowerCase`. -/
def jsToLowerStr (s : String) : String := ⟨s.data.map jsToLower⟩

/-- JS regex `\w` (no `u` flag): ASCII letters, digits, underscore. -/
def isWordChar (c : Char) : Bool := c.isAlpha || c.isDigit || c == '_'

/-- `\w`-ness of an optional neighbour character (out of bounds counts as
non-word). -/
def isWordOpt : Option Char → Bool
  | none => false
  | some c => isWordChar c

/-- A profile regex: a case-insensitive word alternation `\b(…|…)\b` or a
case-insensitive character class given as closed ranges (singletons for
single characters). -/
inductive JsPattern where
  | wordAlt : List String → JsPattern
  | charClass : List (Char × Char) → JsPattern

/-- Case-insensitive character-class membership: the character or its
lowercase form lies in one of the ranges (the profile classes are written
in lowercase). -/
def charClassMatch (ranges : List (Char × Char)) (c : Char) : Bool :=
  ranges.any (fun r =>
    decide ((r.1 ≤ c ∧ c ≤ r.2) ∨ (r.1 ≤ jsToLower c ∧ jsToLower c ≤ r.2)))

/-- First alternative of `\b(…)\b` matching at the head of `l` (backtracking
regex semantics: alternatives tried in order; both ends must sit on a word
boundary, judged against `prev`, the character before this position).
Returns the match length. -/
def tryAltsAt (alts : List String) (prev : Option Char) (l : List Char) : Option Nat :=
  alts.findSome? fun w =>
    let wl := w.data
    let k := wl.length
    let pre := l.take k
    if (pre.map jsToLower == wl) && decide (0 < k) &&
        (isWordOpt prev != isWordChar (pre.headD ' ')) &&
        (isWordChar (pre.getLastD ' ') != isWordOpt (l.drop k).head?) then
      some k
    else
      none

/-- Global scan of a word-alternation pattern: leftmost matches, resuming
after each match end; counts the matches.  One byte of fuel per character
suffices since every match consumes at least one character. -/
def scanWordAlt : Nat → List String → Option Char → List Char → Nat
  | 0, _, _, _ => 0
  | _ + 1, _, _, [] => 0
  | fuel + 1, alts, prev, c :: rest =>
    match tryAltsAt alts prev (c :: rest) with
    | some k =>
      1 + scanWordAlt fuel alts (some ((c :: rest).getD (k - 1) ' ')) ((c :: rest).drop k)
    | none => scanWordAlt fuel alts (some c) rest

/-- `text.match(pattern) || []` match count for one profile regex (a
single-character class matches once per matching character). -/
def countPatternMatches (p : JsPattern) (text : String) : Nat :=
  match p with
  | .charClass ranges => (text.data.filter (charClassMatch ranges)).length
  | .wordAlt alts => scanWordAlt (text.data.length + 1) alts none text.data

/-- One language profile: display name, regex patterns, common words. -/
structure LangProfile where
  name : String
  patterns : List JsPattern
  commonWords : List String

/-- The `LANGUAGE_PATTERNS` table (lines 9-102), in source order. -/
def languagePatterns : List (String × LangProfile) :=
  [("en", ⟨"English",
    [.wordAlt ["the", "and", "or", "but", "in", "on", "at", "to", "for", "of", "with", "by"],
     .wordAlt ["is", "are", "was", "were", "have", "has", "had", "will", "would", "could", "should"],
     .wordAlt ["this", "that", "these", "those", "here", "there", "where", "when", "what", "who", "how", "why"]],
    ["the", "and", "to", "of", "a", "in", "is", "it", "you", "that", "he", "was", "for", "on", "are", "as", "with", "his", "they", "i"]⟩),
   ("de", ⟨"German",
    [.wordAlt ["der", "die", "das", "den", "dem", "des", "ein", "eine", "einen", "einem", "einer", "eines"],
     .wordAlt ["und", "oder", "aber", "in", "auf", "an", "zu", "für", "von", "mit", "bei", "nach", "über", "unter", "vor", "hinter"],
     .wordAlt ["ist", "sind", "war", "waren", "haben", "hat", "hatte", "wird", "würde", "könnte", "sollte"],
     .charClass [('ä', 'ä'), ('ö', 'ö'), ('ü', 'ü'), ('ß', 'ß')]],
    ["der", "die", "und", "in", "den", "von", "zu", "das", "mit", "sich", "des", "auf", "für", "ist", "im", "dem", "nicht", "ein", "eine", "als"]⟩),
   ("es", ⟨"Spanish",
    [.wordAlt ["el", "la", "los", "las", "un", "una", "unos", "unas", "de", "del", "al"],
     .wordAlt ["y", "o", "pero", "en", "con", "por", "para", "desde", "hasta", "sobre", "bajo", "ante", "tras"],
     .wordAlt ["es", "son", "era", "eran", "tiene", "tienen", "tenía", "será", "sería", "podría", "debería"],
     .charClass [('ñ', 'ñ'), ('á', 'á'), ('é', 'é'), ('í', 'í'), ('ó', 'ó'), ('ú', 'ú'), ('ü', 'ü')]],
    ["de", "la", "que", "el", "en", "y", "a", "es", "se", "no", "te", "lo", "le", "da", "su", "por", "son", "con", "para", "al"]⟩),
   ("fr", ⟨"French",
    [.wordAlt ["le", "la", "les", "un", "une", "des", "du", "de", "d\x27"],
     .wordAlt ["et", "ou", "mais", "dans", "sur", "avec", "par", "pour", "sans", "sous", "entre", "pendant", "après", "avant"],
     .wordAlt ["est", "sont", "était", "étaient", "a", "ont", "avait", "sera", "serait", "pourrait", "devrait"],
     .charClass [('à', 'à'), ('â', 'â'), ('ä', 'ä'), ('é', 'é'), ('è', 'è'), ('ê', 'ê'), ('ë', 'ë'), ('ï', 'ï'), ('î', 'î'), ('ô', 'ô'), ('ö', 'ö'), ('ù', 'ù'), ('û', 'û'), ('ü', 'ü'), ('ÿ', 'ÿ'), ('ç', 'ç')]],
    ["de", "le", "et", "à", "un", "il", "être", "et", "en", "avoir", "que", "pour", "dans", "ce", "son", "une", "sur", "avec", "ne", "se"]⟩),
   ("it", ⟨"Italian",
    [.wordAlt ["il", "la", "lo", "gli", "le", "un", "una", "uno", "del", "della", "dello", "degli", "delle"],
     .wordAlt ["e", "o", "ma", "in", "su", "con", "per", "da", "di", "a", "tra", "fra", "durante", "dopo", "prima"],
     .wordAlt ["è", "sono", "era", "erano", "ha", "hanno", "aveva", "sarà", "sarebbe", "potrebbe", "dovrebbe"],
     .charClass [('à', 'à'), ('è', 'è'), ('é', 'é'), ('ì', 'ì'), ('í', 'í'), ('î', 'î'), ('ò', 'ò'), ('ó', 'ó'), ('ù', 'ù')]],
    ["di", "a", "da", "in", "con", "su", "per", "tra", "fra", "la", "il", "lo", "gli", "le", "un", "una", "uno", "del", "della", "dello"]⟩),
   ("pt", ⟨"Portuguese",
    [.wordAlt ["o", "a", "os", "as", "um", "uma", "uns", "umas", "do", "da", "dos", "das", "no", "na", "nos", "nas"],
     .wordAlt ["e", "ou", "mas", "em", "com", "por", "para", "de", "desde", "até", "sobre", "sob", "entre", "durante", "após", "antes"],
     .wordAlt ["é", "são", "era", "eram", "tem", "têm", "tinha", "será", "seria", "poderia", "deveria"],
     .charClass [('ã', 'ã'), ('â', 'â'), ('á', 'á'), ('à', 'à'), ('ç', 'ç'), ('é', 'é'), ('ê', 'ê'), ('í', 'í'), ('ó', 'ó'), ('ô', 'ô'), ('õ', 'õ'), ('ú', 'ú')]],
    ["de", "a", "o", "que", "e", "do", "da", "em", "um", "para", "é", "com", "não", "uma", "os", "no", "se", "na", "por", "mais"]⟩),
   ("ru", ⟨"Russian",
    [.charClass [('а', 'я'), ('ё', 'ё')],
     .wordAlt ["и", "в", "не", "на", "я", "быть", "тот", "он", "оно", "она", "они", "мы", "вы", "ты", "что", "это", "как", "где", "когда"]],
    ["в", "и", "не", "на", "я", "быть", "тот", "он", "оно", "она", "они", "мы", "вы", "ты", "что", "это", "как", "где", "когда", "почему"]⟩),
   ("ja", ⟨"Japanese",
    [.charClass [('ひ', 'ひ'), ('ら', 'ら'), ('が', 'が'), ('な', 'な'), ('カ', 'カ'), ('タ', 'タ'), ('カ', 'カ'), ('ナ', 'ナ'), ('漢', '漢'), ('字', '字')],
     .charClass [('あ', 'ん'), ('ア', 'ン'), ('一', '龯')],
     .wordAlt ["です", "である", "だ", "は", "が", "を", "に", "で", "と", "の", "から", "まで", "より", "について"]],
    ["の", "に", "は", "を", "た", "が", "で", "て", "と", "し", "れ", "さ", "ある", "いる", "も", "する", "から", "な", "こと", "として"]⟩),
   ("zh", ⟨"Chinese",
    [.charClass [('一', '龯')],
     .wordAlt ["的", "了", "和", "是", "在", "有", "不", "我", "你", "他", "她", "它", "们", "这", "那", "什么", "怎么", "为什么", "哪里", "什么时候"]],
    ["的", "了", "和", "是", "在", "有", "不", "我", "你", "他", "她", "它", "们", "这", "那", "什么", "怎么", "为什么", "哪里", "什么时候"]⟩),
   ("ko", ⟨"Korean",
    [.charClass [('가', '힣')],
     .wordAlt ["이", "그", "저", "의", "를", "을", "에", "에서", "와", "과", "로", "으로", "는", "은", "가", "이", "하다", "있다", "없다", "되다"]],
    ["이", "그", "저", "의", "를", "을", "에", "에서", "와", "과", "로", "으로", "는", "은", "가", "이", "하다", "있다", "없다", "되다"]⟩)]

/-- JS object property lookup `LANGUAGE_PATTERNS[langCode]`. -/
def lookupProfile (langCode : String) : Option LangProfile :=
  (languagePatterns.find? (fun p => p.1 == langCode)).map (·.2)

/-- Split at every whitespace character (after the `length > 1` filter
this agrees with JS `split(/\s+/)`, which differs only in how it groups
empty pieces between consecutive separators). -/
def splitWsAux (acc : List Char) : List Char → List String
  | [] => [⟨acc.reverse⟩]
  | c :: rest =>
    if isJsSpace c then ⟨acc.reverse⟩ :: splitWsAux [] rest
    else splitWsAux (c :: acc) rest

/-- JS `s.split(/\s+/)` up to empty pieces. -/
def jsSplitWs (s : String) : List String := splitWsAux [] s.data

/-- The tokenizer of `calculateLanguageScore` (line 148): lowercase words
of length greater than one. -/
def scoreWords (text : String) : List String :=
  (jsSplitWs (jsToLowerStr text)).filter (fun w => 1 < w.length)

/-- The pattern-score accumulation loop (lines 157-162): for each pattern
with at least one match add `min(matches / max(words, 5), 1)`. -/
def patternSum (text : String) (pats : List JsPattern) (wlen : Nat) : ℚ :=
  pats.foldl (fun acc p =>
    if 0 < countPatternMatches p text then
      acc + min ((countPatternMatches p text : ℚ) / ((max wlen 5 : Nat) : ℚ)) 1
    else acc) 0

/-- The flat `+0.3` diacritic bonus (lines 181-187): German, Spanish or
French when the raw text contains one of the language's special
characters. -/
def specialBonus (text : String) (langCode : String) (score : ℚ) : ℚ :=
  if langCode == "de" &&
      text.data.any (charClassMatch [('ä', 'ä'), ('ö', 'ö'), ('ü', 'ü'), ('ß', 'ß')]) then
    score + 3/10
  else if langCode == "es" &&
      text.data.any (charClassMatch
        [('ñ', 'ñ'), ('á', 'á'), ('é', 'é'), ('í', 'í'), ('ó', 'ó'), ('ú', 'ú'), ('ü', 'ü')]) then
    score + 3/10
  else if langCode == "fr" &&
      text.data.any (charClassMatch
        [('à', 'à'), ('â', 'â'), ('ä', 'ä'), ('é', 'é'), ('è', 'è'), ('ê', 'ê'), ('ë', 'ë'),
         ('ï', 'ï'), ('î', 'î'), ('ô', 'ô'), ('ö', 'ö'), ('ù', 'ù'), ('û', 'û'), ('ü', 'ü'),
         ('ÿ', 'ÿ'), ('ç', 'ç')]) then
    score + 3/10
  else score

/-- `calculateLanguageScore` (lines 143-190): weighted combination
`patternScore*0.4 + commonWordScore*0.6` plus the diacritic bonus, clamped
to at most 1 (`0.4 = 2/5`, `0.6 = 3/5`, `0.3 = 3/10`, `2.0`, `3.0` as
exact rationals). -/
def calculateLanguageScore (text : String) (langCode : String) : ℚ :=
  match lookupProfile langCode with
  | none => 0
  | some language =>
    let words := scoreWords text
    if words.length = 0 then 0
    else
      let patternScore :=
        patternSum text language.patterns words.length / (language.patterns.length : ℚ) * 2
      let commonWordScore :=
        ((words.filter (fun w => language.commonWords.contains w)).length : ℚ) /
          (words.length : ℚ) * 3
      min (specialBonus text langCode (patternScore * (2/5) + commonWordScore * (3/5))) 1

/-! ### SRT text extraction (`extractTextFromSRT`, lines 109-135) -/

/-- Index of the last `\n` within a character run. -/
def lastNlIdx (run : List Char) : Option Nat :=
  (run.reverse.findIdx? (fun c => c == '\n')).map (fun j => run.length - 1 - j)

/-- JS `split(/\n\s*\n/)`: a separator is `\n`, then greedily as much `\s`
as possible, ending with a final `\n` (the last `\n` of the whitespace run
that follows).  Fuelled scan; one unit per character suffices. -/
def splitBlocksAux : Nat → List Char → List Char → List String
  | 0, acc, _ => [⟨acc.reverse⟩]
  | _ + 1, acc, [] => [⟨acc.reverse⟩]
  | fuel + 1, acc, '\n' :: rest =>
    (match lastNlIdx (rest.takeWhile isJsSpace) with
     | some j => ⟨acc.reverse⟩ :: splitBlocksAux fuel [] (rest.drop (j + 1))
     | none => splitBlocksAux fuel ('\n' :: acc) rest)
  | fuel + 1, acc, c :: rest => splitBlocksAux fuel (c :: acc) rest

/-- `srtContent.trim().split(/\n\s*\n/)`. -/
def splitBlocks (s : String) : List String :=
  splitBlocksAux (s.data.length + 1) [] s.data

/-- JS `Array.prototype.join(' ')`. -/
def joinSpace : List String → String
  | [] => ""
  | [x] => x
  | x :: rest => x ++ " " ++ joinSpace rest

/-- Per-block text extraction: skip blocks of fewer than three lines, then
keep the trimmed non-empty lines after the index and timestamp lines. -/
def extractCore (srtContent : String) : String :=
  let blocks := splitBlocks (jsTrim srtContent)
  let textLines := blocks.foldl (fun acc block =>
    let lines := jsSplitNl (jsTrim block)
    if lines.length < 3 then acc
    else acc ++ (((lines.drop 2).map jsTrim).filter (fun l => !(l == "")))) []
  joinSpace textLines

/-- `extractTextFromSRT` (lines 109-135): throws on falsy input (the empty
string on the string domain). -/
def extractTextFromSRT (srtContent : String) : Except String String :=
  if srtContent == "" then .error "Invalid SRT content: must be a non-empty string"
  else .ok (extractCore srtContent)

/-! ### `detectLanguage` (lines 197-247) -/

/-- The SRT-ness probe `/\d{2}:\d{2}:\d{2}[,\.]\d{3}/` anchored at the
head of the list. -/
def tsLikeAt : List Char → Bool
  | d1 :: d2 :: c1 :: d3 :: d4 :: c2 :: d5 :: d6 :: c3 :: m1 :: m2 :: m3 :: _ =>
    d1.isDigit && d2.isDigit && c1 == ':' && d3.isDigit && d4.isDigit && c2 == ':' &&
    d5.isDigit && d6.isDigit && (c3 == ',' || c3 == '.') &&
    m1.isDigit && m2.isDigit && m3.isDigit
  | _ => false

/-- `.test` of the SRT-ness probe: a match anywhere. -/
def tsLikeAny : List Char → Bool
  | [] => false
  | c :: rest => tsLikeAt (c :: rest) || tsLikeAny rest

/-- One scored entry (and the shape of `language` and of `suggestions`
elements): `{code, name, confidence}`. -/
structure LangEntry where
  code : String
  name : String
  confidence : ℚ
  deriving Repr, DecidableEq

/-- The `DetectionResult` of the spec. -/
structure DetectionResult where
  detected : Bool
  language : Option LangEntry
  confidence : ℚ
  suggestions : List LangEntry
  deriving Repr, DecidableEq

/-- The comparator `(a, b) => b.confidence - a.confidence` as a sorting
relation: descending confidence (JS `Array.prototype.sort` is stable and
agrees with a stable merge sort under this total preorder). -/
def confDesc (a b : LangEntry) : Bool := decide (b.confidence ≤ a.confidence)

/-- The `scores` map plus the `.map` to `{code, name, confidence}` entries
(lines 217-229), in profile-table order. -/
def scoredEntries (tc : String) : List LangEntry :=
  languagePatterns.map (fun p =>
    {code := p.1, name := p.2.name, confidence := calculateLanguageScore tc p.1})

/-- `sortedResults` (lines 224-230): the entries sorted descending by
confidence. -/
def sortedResults (tc : String) : List LangEntry :=
  (scoredEntries tc).mergeSort confDesc

/-- The result object built at lines 235-246.  `headD` stands for
`sortedResults[0]`, which always exists (ten profiles); the thresholds are
`minConfidence = 0.1` and `Math.min(minConfidence, 0.05) = 0.05`. -/
def mainDetection (tc : String) : DetectionResult :=
  let topResult := (sortedResults tc).headD ⟨"", "", 0⟩
  { detected := decide ((1 : ℚ)/10 ≤ topResult.confidence)
    language :=
      if (1 : ℚ)/10 ≤ topResult.confidence then
        some ⟨topResult.code, topResult.name, topResult.confidence⟩
      else none
    confidence := topResult.confidence
    suggestions :=
      ((sortedResults tc).filter (fun r => decide ((1 : ℚ)/20 ≤ r.confidence))).take 3 }

/-- `detectLanguage` (lines 197-247).  The extraction branch can only
throw on the empty string, which the first guard already rejected, so the
propagated-error case is unreachable. -/
def detectLanguage (srtContent : String) : Except String DetectionResult :=
  if srtContent == "" then .error "Invalid content: must be a non-empty string"
  else
    let et :=
      if jsIncludes srtContent "-->" || tsLikeAny srtContent.data then
        extractTextFromSRT srtContent
      else .ok srtContent
    match et with
    | .error e => .error e
    | .ok textContent =>
      if jsTrim textContent == "" then
        .ok ⟨false, none, 0, []⟩
      else
        .ok (mainDetection textContent)

/-! ## Claims about the language detector (C8, C10) -/

theorem patternSum_nonneg (text : String) (pats : List JsPattern) (wlen : Nat) :
    0 ≤ patternSum text pats wlen := by
  unfold patternSum
  suffices h : ∀ (l : List JsPattern) (init : ℚ), 0 ≤ init →
      0 ≤ l.foldl (fun acc p =>
        if 0 < countPatternMatches p text then
          acc + min ((countPatternMatches p text : ℚ) / ((max wlen 5 : Nat) : ℚ)) 1
        else acc) init from
    h pats 0 le_rfl
  intro l
  induction l with
  | nil => intro init h0; simpa using h0
  | cons p rest ih =>
    intro init h0
    simp only [List.foldl]
    by_cases hc : 0 < countPatternMatches p text
    · rw [if_pos hc]
      refine ih _ ?_
      have hmn : (0 : ℚ) ≤ min ((countPatternMatches p text : ℚ) / ((max wlen 5 : Nat) : ℚ)) 1 :=
        le_min (div_nonneg (Nat.cast_nonneg _) (Nat.cast_nonneg _)) (by norm_num)
      linarith
    · rw [if_neg hc]
      exact ih _ h0

theorem specialBonus_nonneg (text langCode : String) {s : ℚ} (hs : 0 ≤ s) :
    0 ≤ specialBonus text langCode s := by
  unfold specialBonus
  split_ifs <;> linarith

/-- Every language score lies in `[0, 1]`. -/
theorem calculateLanguageScore_bounds (text langCode : String) :
    0 ≤ calculateLanguageScore text langCode ∧ calculateLanguageScore text langCode ≤ 1 := by
  unfold calculateLanguageScore
  cases hlp : lookupProfile langCode with
  | none => norm_num
  | some lang =>
    simp only
    by_cases hw : (scoreWords text).length = 0
    · rw [if_pos hw]
      norm_num
    · rw [if_neg hw]
      refine ⟨le_min ?_ (by norm_num), min_le_right _ _⟩
      apply specialBonus_nonneg
      have h1 : (0 : ℚ) ≤
          patternSum text lang.patterns (scoreWords text).length /
            (lang.patterns.length : ℚ) * 2 :=
        mul_nonneg (div_nonneg (patternSum_nonneg _ _ _) (Nat.cast_nonneg _)) (by norm_num)
      have h2 : (0 : ℚ) ≤
          (((scoreWords text).filter (fun w => lang.commonWords.contains w)).length : ℚ) /
            ((scoreWords text).length : ℚ) * 3 :=
        mul_nonneg (div_nonneg (Nat.cast_nonneg _) (Nat.cast_nonneg _)) (by norm_num)
      have := add_nonneg (mul_nonneg h1 (by norm_num : (0 : ℚ) ≤ 2/5))
        (mul_nonneg h2 (by norm_num : (0 : ℚ) ≤ 3/5))
      linarith

/-- `sortedResults` is sorted non-increasing by confidence. -/
theorem sortedResults_pairwise (tc : String) :
    (sortedResults tc).Pairwise (fun a b => b.confidence ≤ a.confidence) := by
  have htrans : ∀ a b c : LangEntry, confDesc a b → confDesc b c → confDesc a c := by
    intro a b c hab hbc
    simp only [confDesc, decide_eq_true_eq] at *
    exact le_trans hbc hab
  have htotal : ∀ a b : LangEntry, (confDesc a b || confDesc b a) = true := by
    intro a b
    simp only [confDesc, Bool.or_eq_true, decide_eq_true_eq]
    exact le_total b.confidence a.confidence
  have hp : (List.mergeSort (scoredEntries tc) confDesc).Pairwise
      (fun a b => confDesc a b = true) :=
    List.sorted_mergeSort htrans htotal (scoredEntries tc)
  exact hp.imp (fun hab => by simpa [confDesc] using hab)

/-- Every entry of `sortedResults` carries a score in `[0, 1]`. -/
theorem sortedResults_bounds (tc : String) :
    ∀ e ∈ sortedResults tc, 0 ≤ e.confidence ∧ e.confidence ≤ 1 := by
  intro e he
  rw [sortedResults, List.mem_mergeSort, scoredEntries, List.mem_map] at he
  obtain ⟨p, _, rfl⟩ := he
  exact calculateLanguageScore_bounds tc p.1

/-- The invariants of the main detection record: sorted suggestions, at
most three of them, threshold-consistent `detected`/`language`, and all
confidences in `[0, 1]`. -/
theorem mainDetection_invariants (tc : String) :
    (mainDetection tc).suggestions.Pairwise (fun a b => b.confidence ≤ a.confidence) ∧
    (mainDetection tc).suggestions.length ≤ 3 ∧
    ((mainDetection tc).detected = true ↔ (1 : ℚ)/10 ≤ (mainDetection tc).confidence) ∧
    ((mainDetection tc).language = none ↔ (mainDetection tc).detected = false) ∧
    (0 ≤ (mainDetection tc).confidence ∧ (mainDetection tc).confidence ≤ 1) ∧
    ∀ e ∈ (mainDetection tc).suggestions, 0 ≤ e.confidence ∧ e.confidence ≤ 1 := by
  refine ⟨?_, ?_, ?_, ?_, ?_, ?_⟩
  · exact ((sortedResults_pairwise tc).filter _).sublist (List.take_sublist _ _)
  · exact le_trans (List.length_take_le _ _) le_rfl
  · simp [mainDetection]
  · simp only [mainDetection]
    by_cases hc : (1 : ℚ)/10 ≤ ((sortedResults tc).headD ⟨"", "", 0⟩).confidence
    · simp [hc]
    · simp [hc]
  · simp only [mainDetection]
    cases hm : sortedResults tc with
    | nil => simp [hm]
    | cons a t =>
      have := sortedResults_bounds tc a (by rw [hm]; exact List.mem_cons_self a t)
      simpa [hm] using this
  · intro e he
    simp only [mainDetection] at he
    have h1 : e ∈ (sortedResults tc).filter (fun r => decide ((1 : ℚ)/20 ≤ r.confidence)) :=
      List.mem_of_mem_take he
    exact sortedResults_bounds tc e (List.mem_of_mem_filter h1)

/-- **C8**: every result of `detectLanguage` has its suggestions sorted
non-increasing by confidence with at most three entries, `detected` holds
exactly when the top confidence is at least `0.1`, `language` is `null`
exactly when nothing was detected, and every confidence (top-level and in
the suggestions) lies in `[0, 1]`. -/
theorem claim8_detect_invariants (s : String) (r : DetectionResult)
    (h : detectLanguage s = .ok r) :
    r.suggestions.Pairwise (fun a b => b.confidence ≤ a.confidence) ∧
    r.suggestions.length ≤ 3 ∧
    (r.detected = true ↔ (1 : ℚ)/10 ≤ r.confidence) ∧
    (r.language = none ↔ r.detected = false) ∧
    (0 ≤ r.confidence ∧ r.confidence ≤ 1) ∧
    ∀ e ∈ r.suggestions, 0 ≤ e.confidence ∧ e.confidence ≤ 1 := by
  unfold detectLanguage at h
  by_cases hs : s = ""
  · subst hs
    simp at h
  · have hb : (s == "") = false := by simpa using hs
    simp only [hb, Bool.false_eq_true, if_false] at h
    cases hc : jsIncludes s "-->" || tsLikeAny s.data with
    | true =>
      rw [hc] at h
      simp only [if_true, extractTextFromSRT, hb, Bool.false_eq_true, if_false] at h
      by_cases ht : jsTrim (extractCore s) == ""
      · rw [if_pos ht] at h
        injection h with h'
        subst h'
        refine ⟨List.Pairwise.nil, by simp, by simp, by simp, by norm_num, by simp⟩
      · rw [if_neg ht] at h
        injection h with h'
        subst h'
        exact mainDetection_invariants _
    | false =>
      rw [hc] at h
      simp only [Bool.false_eq_true, if_false] at h
      by_cases ht : jsTrim s == ""
      · rw [if_pos ht] at h
        injection h with h'
        subst h'
        refine ⟨List.Pairwise.nil, by simp, by simp, by simp, by norm_num, by simp⟩
      · rw [if_neg ht] at h
        injection h with h'
        subst h'
        exact mainDetection_invariants _

theorem claim8_detect_invariants_witness :
    (DetectionResult.mk false none 0 []).suggestions.Pairwise
      (fun a b => b.confidence ≤ a.confidence) ∧
    (DetectionResult.mk false none 0 []).suggestions.length ≤ 3 ∧
    ((DetectionResult.mk false none 0 []).detected = true ↔
      (1 : ℚ)/10 ≤ (DetectionResult.mk false none 0 []).confidence) ∧
    ((DetectionResult.mk false none 0 []).language = none ↔
      (DetectionResult.mk false none 0 []).detected = false) ∧
    (0 ≤ (DetectionResult.mk false none 0 []).confidence ∧
      (DetectionResult.mk false none 0 []).confidence ≤ 1) ∧
    ∀ e ∈ (DetectionResult.mk false none 0 []).suggestions,
      0 ≤ e.confidence ∧ e.confidence ≤ 1 :=
  claim8_detect_invariants " " (DetectionResult.mk false none 0 []) (by rfl)

/-- **C10 counterexample**: the empty string makes `detectLanguage` throw
(`!srtContent` is true for `""`), contradicting the claim that an empty
string is a valid, non-error input returning the blank result. -/
theorem claim10_counterexample :
    exceptOk (detectLanguage "") = false ∧
    detectLanguage "" = .error "Invalid content: must be a non-empty string" := by
  exact ⟨rfl, rfl⟩

/-- **C10 (amended)**: `detectLanguage` throws `Invalid content` for the
empty string as well as for the (out-of-domain) null/undefined/non-string
inputs; for every non-empty string whose text (after extraction when the
content looks like SRT) is whitespace-only, it returns
`{detected: false, language: null, confidence: 0, suggestions: []}`. -/
theorem claim10_blank_amended (s : String) (h1 : s ≠ "")
    (h2 : jsTrim (if jsIncludes s "-->" || tsLikeAny s.data then extractCore s else s) = "") :
    exceptOk (detectLanguage "") = false ∧
    detectLanguage s = .ok ⟨false, none, 0, []⟩ := by
  refine ⟨rfl, ?_⟩
  have hb : (s == "") = false := by simpa using h1
  unfold detectLanguage
  simp only [hb, Bool.false_eq_true, if_false]
  cases hc : jsIncludes s "-->" || tsLikeAny s.data with
  | true =>
    rw [hc] at h2
    simp only [if_true, extractTextFromSRT, hb, Bool.false_eq_true, if_false]
    rw [if_pos (by simpa using h2)]
  | false =>
    rw [hc] at h2
    simp only [Bool.false_eq_true, if_false]
    rw [if_pos (by simpa using h2)]

theorem claim10_blank_amended_witness :
    exceptOk (detectLanguage "") = false ∧
    detectLanguage "   " = .ok ⟨false, none, 0, []⟩ :=
  claim10_blank_amended "   " (by decide) (by rfl)

end BunnyVTT
